import Mathlib

/-!
Shallow embedding of the battle core of `src/main.cpp` (a touchscreen
Pokémon-style battle simulator): the data model (`Move`, `Pokemon`,
`Player`, session counters), the damage model (`Game::computeDamage`),
the combatant lifecycle (`Pokemon::reset`, the damage-application lines
of `Game::runMatch`), the CPU HARD-difficulty policy, and one iteration
of the `runMatch` turn loop with all randomness, touch choices and the
projectile-collision outcome injected as explicit inputs.  All drawing,
sleeping and touch-geometry code is dropped; messages written with
`LCD.WriteLine` inside the action-processing block are kept as strings
so that reported conditions are visible.  C++ `int` is modelled as `ℤ`
and `double` arithmetic as exact rational arithmetic.
-/

namespace Minimon

/-- `struct Move` (main.cpp lines 216-221): name, power, accuracy, pp. -/
structure Move where
  name : String
  power : Int
  accuracy : Int
  pp : Int

/-- Default `Move`, used only as the `getD` fallback; every theorem below
restricts to in-bounds indices so the fallback is never the value read. -/
def defaultMove : Move := ⟨"", 0, 0, 0⟩

/-- `struct Pokemon` (main.cpp lines 236-247), dropping the drawing
fields `x, y, w, h` which only feed the projectile animation. -/
structure Pokemon where
  name : String
  maxHP : Int
  hp : Int
  attack : Int
  defense : Int
  moves : List Move
  defending : Bool

/-- `Pokemon::reset` (main.cpp line 245):
`hp = maxHP; defending = false; for(auto &m : moves) if (m.pp < 0) m.pp = 0;` -/
def Pokemon.reset (p : Pokemon) : Pokemon :=
  { p with
    hp := p.maxHP
    defending := false
    moves := p.moves.map (fun m => if m.pp < 0 then { m with pp := 0 } else m) }

/-- `Pokemon::fainted` (main.cpp line 246): `return hp <= 0;` -/
def Pokemon.fainted (p : Pokemon) : Bool := p.hp ≤ 0

/-- `struct Player` (main.cpp lines 258-264), without the per-player
`wins` counter (never used by the battle loop; session counters live in
`SessionStats` below, mirroring the `Game` members). -/
structure Player where
  label : String
  isHuman : Bool
  pkmn : Pokemon

/-- The session counters of `class Game` (main.cpp lines 285-287):
`gamesPlayed`, `humanWins`, `cpuWins`. -/
structure SessionStats where
  gamesPlayed : Int
  humanWins : Int
  cpuWins : Int

/-- `MIN_DAMAGE` (main.cpp line 45). -/
def MIN_DAMAGE : Int := 1

/-- `RETREAT_HEAL` (main.cpp line 44). -/
def RETREAT_HEAL : Int := 8

/-- The C++ `(int)` cast on a `double`: truncation toward zero,
modelled on exact rationals. -/
def cppIntCast (q : ℚ) : Int := if 0 ≤ q then ⌊q⌋ else -⌊-q⌋

/-- `Game::computeDamage` (main.cpp lines 357-369) with the
`randInt(85,100)` draw injected as `v` and the `difficulty` member
passed explicitly; `double` arithmetic is modelled exactly on `ℚ`:

    double base = att.attack - def.defense * 0.45;
    if (base < 1.0) base = 1.0;
    double raw = base * (m.power / 20.0);
    double mult = randInt(85,100) / 100.0;
    if (difficulty == 1) raw *= 1.08;
    raw *= mult;
    int dmg = (int)(raw + 0.5);
    if (dmg < MIN_DAMAGE) dmg = MIN_DAMAGE;
    return dmg; -/
def computeDamage (difficulty attack defense power v : Int) : Int :=
  let base0 : ℚ := (attack : ℚ) - (defense : ℚ) * (45 / 100)
  let base : ℚ := if base0 < 1 then 1 else base0
  let raw0 : ℚ := base * ((power : ℚ) / 20)
  let mult : ℚ := (v : ℚ) / 100
  let raw1 : ℚ := if difficulty = 1 then raw0 * (108 / 100) else raw0
  let raw2 : ℚ := raw1 * mult
  let dmg : Int := cppIntCast (raw2 + 1 / 2)
  if dmg < MIN_DAMAGE then MIN_DAMAGE else dmg

/-- The damage-application lines of `Game::runMatch`
(main.cpp lines 684-688), extracted over one target's fields:

    if (target->pkmn.defending) { dmg = (dmg + 1)/2; target->pkmn.defending = false; }
    target->pkmn.hp -= dmg; if (target->pkmn.hp < 0) target->pkmn.hp = 0;

Returns (new hp, new defending flag, effective damage actually
subtracted — the value the code then reports on screen). -/
def applyDamage (hp : Int) (defending : Bool) (amount : Int) : Int × Bool × Int :=
  let dmg : Int := if defending then Int.tdiv (amount + 1) 2 else amount
  let hp2 : Int := hp - dmg
  (if hp2 < 0 then 0 else hp2, false, dmg)

/-- The HARD-difficulty best-move scan of `Game::runMatch`
(main.cpp lines 580-581):

    int best = 0;
    for (int i=0;i<(int)actor->pkmn.moves.size();++i)
      if (actor->pkmn.moves[i].power > actor->pkmn.moves[best].power
          && actor->pkmn.moves[i].pp>0) best=i;

Note the scan starts with `best = 0` without checking `moves[0].pp`. -/
def hardBest (moves : List Move) : Nat :=
  (List.range moves.length).foldl
    (fun best i =>
      if (moves.getD i defaultMove).power > (moves.getD best defaultMove).power ∧
          0 < (moves.getD i defaultMove).pp
      then i else best) 0

/-- The HARD-difficulty CPU choice (main.cpp line 582), with the fresh
`randInt(1,100)` draw injected as `roll`:

    chosen = (randInt(1,100) <= 85) ? best : 3; -/
def hardChoose (roll : Int) (moves : List Move) : Int :=
  if roll ≤ 85 then (hardBest moves : Int) else 3

/-- The move-index clamp and lookup of `Game::runMatch`
(main.cpp lines 606-608), modelled partially: a lookup the C++ `vector`
would perform out of bounds (undefined behaviour) is `none`.

    int mIdx = chosen;
    if (mIdx >= (int)actor->pkmn.moves.size()) mIdx = 0;
    Move &mv = actor->pkmn.moves[mIdx]; -/
def lookupMove (moves : List Move) (chosen : Int) : Option Move :=
  let mIdx : Int := if (moves.length : Int) ≤ chosen then 0 else chosen
  if h : 0 ≤ mIdx ∧ mIdx.toNat < moves.length then
    some (moves.get ⟨mIdx.toNat, h.2⟩)
  else none

/-- Result of processing one chosen action (main.cpp lines 596-710):
either the actor retreated — `return false`, ending the match with the
turn loop abandoned — or the body falls through to the turn swap. -/
inductive ActionResult where
  | retreatEnd (actor : Pokemon) (msgs : List String)
  | proceed (actor : Pokemon) (target : Pokemon) (msgs : List String)

/-- The "Process chosen action" block of `Game::runMatch`
(main.cpp lines 596-710), with every random draw injected: `accRoll`
stands for the `randInt(1,100)` accuracy roll (line 633), `variance`
for the `randInt(85,100)` draw inside `computeDamage`, and `projHits`
for the outcome of the projectile-animation collision loop
(lines 641-677).  Strings collect the `LCD.WriteLine` battle messages.
`chosen = 3` is retreat (lines 596-603); any other value enters the
move branch (lines 604-710), whose final line 707 clears the actor's
own defend flag after an attack-move selection:

    if (actor->pkmn.defending && mv.power > 0) actor->pkmn.defending = false;

For a negative `chosen` (never produced by the selection code, whose
values are -1 and the button ids 0..3) the C++ lookup would be out of
bounds; here `Int.toNat` reads index 0, a case no theorem below relies
on (see `lookupMove` for the faithful partial model of the lookup). -/
def processAction (difficulty : Int) (actor target : Pokemon)
    (chosen accRoll variance : Int) (projHits : Bool) : ActionResult :=
  if chosen = 3 then
    let hp1 := actor.hp + RETREAT_HEAL
    let hp2 := if hp1 > actor.maxHP then actor.maxHP else hp1
    .retreatEnd { actor with hp := hp2 } [actor.name ++ " retreated and healed."]
  else if chosen ≠ -1 then
    let mIdx : Nat :=
      if (actor.moves.length : Int) ≤ chosen then 0 else chosen.toNat
    let mv := actor.moves.getD mIdx defaultMove
    let step : Pokemon × Pokemon × List String :=
      if mv.power = 0 then
        -- utility/defend branch (lines 611-620)
        if mv.pp ≤ 0 then
          (actor, target, ["No PP left for that move."])
        else
          ({ actor with
              defending := true
              moves := actor.moves.set mIdx { mv with pp := mv.pp - 1 } },
            target,
            [actor.name ++ " used " ++ mv.name ++ "! Defending..."])
      else
        -- standard attack branch (lines 621-704)
        if mv.pp ≤ 0 then
          (actor, target, ["No PP left for that move."])
        else if mv.accuracy < accRoll then
          -- miss (lines 634-638): no PP consumed
          (actor, target, [actor.name ++ " used " ++ mv.name ++ " but missed!"])
        else if projHits then
          -- hit (lines 681-694)
          let dmg := computeDamage difficulty actor.attack target.defense mv.power variance
          let r := applyDamage target.hp target.defending dmg
          ({ actor with moves := actor.moves.set mIdx { mv with pp := mv.pp - 1 } },
            { target with hp := r.1, defending := r.2.1 },
            [actor.name ++ " used " ++ mv.name ++ "!",
              "Hit for " ++ toString r.2.2 ++ " dmg"])
        else
          -- projectile left the screen (lines 695-701): PP still consumed
          ({ actor with moves := actor.moves.set mIdx { mv with pp := mv.pp - 1 } },
            target,
            [actor.name ++ " used " ++ mv.name ++ " - no hit."])
    let actor1 := step.1
    let actor2 :=
      if actor1.defending ∧ 0 < mv.power then { actor1 with defending := false }
      else actor1
    .proceed actor2 step.2.1 step.2.2
  else
    -- chosen == -1 falls through both branches straight to the turn swap
    .proceed actor target []

/-- One match between two seats plus the turn flag of `Game::runMatch`
(`bool p1Turn`, main.cpp line 484). -/
structure MatchState where
  p1 : Player
  p2 : Player
  p1Turn : Bool

/-- Result of one iteration of the battle `while` loop: an invalid
human press hits `continue` (line 568) leaving everything unchanged;
retreat returns from `runMatch` (line 603); otherwise the body ends at
`p1Turn = !p1Turn` (line 714). -/
inductive StepResult where
  | invalidPress (st : MatchState)
  | retreatEnd (st : MatchState) (msgs : List String)
  | next (st : MatchState) (msgs : List String)

/-- The acting seat of the current iteration
(`Player *actor = p1Turn ? &p1 : &p2;`, main.cpp line 502). -/
def actorOf (st : MatchState) : Player :=
  if st.p1Turn then st.p1 else st.p2

/-- The targeted seat of the current iteration
(`Player *target = p1Turn ? &p2 : &p1;`, main.cpp line 503). -/
def targetOf (st : MatchState) : Player :=
  if st.p1Turn then st.p2 else st.p1

/-- One iteration of the battle `while` loop of `Game::runMatch`
(main.cpp lines 492-715), with the chosen action injected (`chosen` is
the button id 0..3 for a human press inside a hitbox, -1 for a human
press outside every button, or the CPU policy's value).  A human
`chosen = -1` is the `continue` at line 568; every other path processes
the action and swaps the turn. -/
def turnStep (difficulty : Int) (st : MatchState)
    (chosen accRoll variance : Int) (projHits : Bool) : StepResult :=
  if (actorOf st).isHuman ∧ chosen = -1 then
    .invalidPress st
  else
    match processAction difficulty (actorOf st).pkmn (targetOf st).pkmn chosen accRoll
        variance projHits with
    | .retreatEnd a msgs =>
        let st' := if st.p1Turn then { st with p1 := { st.p1 with pkmn := a } }
                   else { st with p2 := { st.p2 with pkmn := a } }
        .retreatEnd st' msgs
    | .proceed a t msgs =>
        let st' :=
          if st.p1Turn then
            { p1 := { st.p1 with pkmn := a }, p2 := { st.p2 with pkmn := t },
              p1Turn := false }
          else
            { p1 := { st.p1 with pkmn := t }, p2 := { st.p2 with pkmn := a },
              p1Turn := true }
        .next st' msgs

/-- The end-of-battle block of `Game::runMatch` (main.cpp lines
718-731), run after the `while` loop exits: report tie or credit the
winner's seat, then `gamesPlayed++`.  Returns the updated counters and
the result message. -/
def endOfBattle (p1 p2 : Player) (s : SessionStats) : SessionStats × String :=
  let afterWins :=
    if p1.pkmn.fainted ∧ p2.pkmn.fainted then (s, "It's a tie!")
    else if p1.pkmn.fainted then
      (if p2.isHuman then { s with humanWins := s.humanWins + 1 }
        else { s with cpuWins := s.cpuWins + 1 },
        p1.label ++ " lost. " ++ p2.label ++ " wins!")
    else if p2.pkmn.fainted then
      (if p1.isHuman then { s with humanWins := s.humanWins + 1 }
        else { s with cpuWins := s.cpuWins + 1 },
        p2.label ++ " lost. " ++ p1.label ++ " wins!")
    else (s, "Match ended unexpectedly.")
  ({ afterWins.1 with gamesPlayed := afterWins.1.gamesPlayed + 1 }, afterWins.2)

/-- Per-iteration injected inputs for the battle loop: the chosen
action and the random draws / collision outcome used that iteration. -/
structure TurnInput where
  chosen : Int
  accRoll : Int
  variance : Int
  projHits : Bool

/-- How one whole `Game::runMatch` call ends: by a retreat (`return
false` at line 603, skipping the end-of-battle counter block), by a
faint (loop exit, lines 718-731 run), or with the supplied inputs
exhausted before either. -/
inductive MatchResult where
  | retreated (st : MatchState) (stats : SessionStats) (msgs : List String)
  | finished (st : MatchState) (stats : SessionStats) (msg : String)
  | outOfInput (st : MatchState) (stats : SessionStats)

/-- The battle `while` loop plus the end-of-battle block of
`Game::runMatch` (main.cpp lines 492-731), consuming one `TurnInput`
per iteration. -/
def runMatchAux (difficulty : Int) (inputs : List TurnInput)
    (st : MatchState) (stats : SessionStats) : MatchResult :=
  if st.p1.pkmn.fainted ∨ st.p2.pkmn.fainted then
    let r := endOfBattle st.p1 st.p2 stats
    .finished st r.1 r.2
  else
    match inputs with
    | [] => .outOfInput st stats
    | inp :: rest =>
      match turnStep difficulty st inp.chosen inp.accRoll inp.variance inp.projHits with
      | .invalidPress st' => runMatchAux difficulty rest st' stats
      | .retreatEnd st' msgs => .retreated st' stats msgs
      | .next st' _ => runMatchAux difficulty rest st' stats

/-- `Game::runMatch` entry (main.cpp lines 481-488): `p1Turn = true`
and both defend flags cleared before the loop. -/
def runMatch (difficulty : Int) (inputs : List TurnInput)
    (p1 p2 : Player) (stats : SessionStats) : MatchResult :=
  runMatchAux difficulty inputs
    { p1 := { p1 with pkmn := { p1.pkmn with defending := false } }
      p2 := { p2 with pkmn := { p2.pkmn with defending := false } }
      p1Turn := true } stats

/-! ## Helper lemmas -/

theorem cppIntCast_mono {a b : ℚ} (h : a ≤ b) : cppIntCast a ≤ cppIntCast b := by
  unfold cppIntCast
  split_ifs with ha hb hb
  · exact Int.floor_le_floor h
  · exact absurd (le_trans ha h) hb
  · have h1 : (0 : ℤ) ≤ ⌊b⌋ := Int.floor_nonneg.mpr hb
    have h2 : (0 : ℤ) ≤ ⌊-a⌋ := Int.floor_nonneg.mpr (by linarith)
    omega
  · have h3 : ⌊-b⌋ ≤ ⌊-a⌋ := Int.floor_le_floor (by linarith)
    omega

/-! ## C6 -/

/-- C6: for every attacker/defender stat pair, move power and injected
variance draw, `computeDamage` returns an integer that is at least 1
(the final `MIN_DAMAGE` clamp guarantees it unconditionally). -/
theorem computeDamage_ge_one (difficulty attack defense power v : Int) :
    1 ≤ computeDamage difficulty attack defense power v := by
  simp only [computeDamage, MIN_DAMAGE]
  split <;> omega

/-! ## C5 -/

/-- C5: applying damage never drives health below 0, never above the
maximum (health only decreases, given a nonnegative amount); if the
target was defending the incoming amount is halved round-half-up as
`(amount+1)/2` before subtraction, and the defending flag is cleared
after absorbing the hit. -/
theorem applyDamage_spec (hp maxHP amount : Int) (defending : Bool)
    (hhp0 : 0 ≤ hp) (hhpM : hp ≤ maxHP) (hamt : 0 ≤ amount) :
    0 ≤ (applyDamage hp defending amount).1 ∧
    (applyDamage hp defending amount).1 ≤ maxHP ∧
    (applyDamage hp defending amount).2.1 = false ∧
    (defending = true → (applyDamage hp defending amount).2.2 = (amount + 1) / 2) ∧
    (defending = false → (applyDamage hp defending amount).2.2 = amount) := by
  have htd : Int.tdiv (amount + 1) 2 = (amount + 1) / 2 := by
    rw [Int.tdiv_eq_ediv] <;> omega
  cases defending
  · refine ⟨?_, ?_, rfl, fun h => absurd h (by decide), fun _ => rfl⟩
    · show (0 : Int) ≤ if hp - amount < 0 then 0 else hp - amount
      split <;> omega
    · show (if hp - amount < 0 then 0 else hp - amount) ≤ maxHP
      split <;> omega
  · refine ⟨?_, ?_, rfl, fun _ => htd, fun h => absurd h (by decide)⟩
    · show (0 : Int) ≤
        if hp - Int.tdiv (amount + 1) 2 < 0 then 0 else hp - Int.tdiv (amount + 1) 2
      rw [htd]; split <;> omega
    · show (if hp - Int.tdiv (amount + 1) 2 < 0 then 0 else hp - Int.tdiv (amount + 1) 2) ≤ maxHP
      rw [htd]
      have h2 : 0 ≤ (amount + 1) / 2 := by omega
      split <;> omega

/-- Witness for C5 at hp = 40, max = 45, amount = 17, defending:
the effective damage is (17+1)/2 = 9. -/
theorem applyDamage_spec_witness :
    0 ≤ (applyDamage 40 true 17).1 ∧
    (applyDamage 40 true 17).1 ≤ 45 ∧
    (applyDamage 40 true 17).2.1 = false ∧
    (true = true → (applyDamage 40 true 17).2.2 = (17 + 1) / 2) ∧
    (true = false → (applyDamage 40 true 17).2.2 = 17) :=
  applyDamage_spec 40 45 17 true (by decide) (by decide) (by decide)

/-! ## C10 -/

/-- C10: `Pokemon.reset` restores health to max, clears the defend
flag, clamps negative PP to 0 and changes nothing else: name and stats
are untouched, and every move keeps its name, power, accuracy and its
remaining PP (`max pp 0` leaves any nonnegative PP unchanged), so a
rematch starts with PP depletion carried over. -/
theorem reset_spec (p : Pokemon) (i : Nat) :
    p.reset.hp = p.maxHP ∧
    p.reset.defending = false ∧
    p.reset.name = p.name ∧
    p.reset.maxHP = p.maxHP ∧
    p.reset.attack = p.attack ∧
    p.reset.defense = p.defense ∧
    p.reset.moves.length = p.moves.length ∧
    (p.reset.moves.getD i defaultMove).name = (p.moves.getD i defaultMove).name ∧
    (p.reset.moves.getD i defaultMove).power = (p.moves.getD i defaultMove).power ∧
    (p.reset.moves.getD i defaultMove).accuracy = (p.moves.getD i defaultMove).accuracy ∧
    (p.reset.moves.getD i defaultMove).pp = max (p.moves.getD i defaultMove).pp 0 := by
  have key : ∀ j : Nat,
      (p.moves.map (fun m => if m.pp < 0 then { m with pp := 0 } else m)).getD j defaultMove
        = (fun m => if m.pp < 0 then { m with pp := 0 } else m) (p.moves.getD j defaultMove) := by
    intro j
    rw [List.getD_eq_getElem?_getD, List.getD_eq_getElem?_getD, List.getElem?_map]
    cases p.moves[j]? <;> rfl
  unfold Pokemon.reset
  refine ⟨rfl, rfl, rfl, rfl, rfl, rfl, by simp, ?_, ?_, ?_, ?_⟩ <;> rw [key i] <;> dsimp only
  · split <;> rfl
  · split <;> rfl
  · split <;> rfl
  · split
    · rename_i hlt
      show (0 : Int) = max (p.moves.getD i defaultMove).pp 0
      omega
    · omega

/-! ## C8 -/

/-- The raw damage value of `Game::computeDamage` before rounding and
the `MIN_DAMAGE` clamp, factored out for the monotonicity proof;
`computeDamage` is definitionally the rounding and clamping of this
value (checked by `rfl` inside `computeDamage_monotone`). -/
def rawOf (difficulty attack defense power v : Int) : ℚ :=
  let base0 : ℚ := (attack : ℚ) - (defense : ℚ) * (45 / 100)
  let base : ℚ := if base0 < 1 then 1 else base0
  let raw0 : ℚ := base * ((power : ℚ) / 20)
  (if difficulty = 1 then raw0 * (108 / 100) else raw0) * ((v : ℚ) / 100)

theorem rawOf_mono (difficulty attack attack' defense power power' v : Int)
    (hv : 0 ≤ v) (hp : 0 ≤ power) :
    (power ≤ power' →
      rawOf difficulty attack defense power v ≤ rawOf difficulty attack defense power' v) ∧
    (attack ≤ attack' →
      rawOf difficulty attack defense power v ≤ rawOf difficulty attack' defense power v) := by
  have hv' : (0 : ℚ) ≤ (v : ℚ) / 100 := by
    have : (0 : ℚ) ≤ (v : ℚ) := by exact_mod_cast hv
    linarith
  simp only [rawOf]
  set B := (if (attack : ℚ) - (defense : ℚ) * (45 / 100) < 1 then 1
      else (attack : ℚ) - (defense : ℚ) * (45 / 100)) with hBdef
  set B' := (if (attack' : ℚ) - (defense : ℚ) * (45 / 100) < 1 then 1
      else (attack' : ℚ) - (defense : ℚ) * (45 / 100)) with hB'def
  have hb : (0 : ℚ) ≤ B := by
    rw [hBdef]; split_ifs with h <;> linarith
  constructor
  · intro hpp
    have hpp' : (power : ℚ) / 20 ≤ (power' : ℚ) / 20 := by
      have hc : (power : ℚ) ≤ (power' : ℚ) := by exact_mod_cast hpp
      linarith
    split_ifs
    · refine mul_le_mul_of_nonneg_right ?_ hv'
      refine mul_le_mul_of_nonneg_right ?_ (by norm_num)
      exact mul_le_mul_of_nonneg_left hpp' hb
    · refine mul_le_mul_of_nonneg_right ?_ hv'
      exact mul_le_mul_of_nonneg_left hpp' hb
  · intro haa
    have haa' : (attack : ℚ) ≤ (attack' : ℚ) := by exact_mod_cast haa
    have hbb : B ≤ B' := by
      rw [hBdef, hB'def]; split_ifs with h1 h2 h2 <;> linarith
    have hp20 : (0 : ℚ) ≤ (power : ℚ) / 20 := by
      have hc : (0 : ℚ) ≤ (power : ℚ) := by exact_mod_cast hp
      linarith
    split_ifs
    · refine mul_le_mul_of_nonneg_right ?_ hv'
      refine mul_le_mul_of_nonneg_right ?_ (by norm_num)
      exact mul_le_mul_of_nonneg_right hbb hp20
    · refine mul_le_mul_of_nonneg_right ?_ hv'
      exact mul_le_mul_of_nonneg_right hbb hp20

/-- C8: with the injected variance draw `v` held fixed (and all other
inputs fixed), `computeDamage` is monotonically non-decreasing in the
move's power, and separately in the attacker's attack stat. -/
theorem computeDamage_monotone (difficulty attack attack' defense power power' v : Int)
    (hv : 0 ≤ v) (hp : 0 ≤ power) :
    (power ≤ power' →
      computeDamage difficulty attack defense power v ≤
        computeDamage difficulty attack defense power' v) ∧
    (attack ≤ attack' →
      computeDamage difficulty attack defense power v ≤
        computeDamage difficulty attack' defense power v) := by
  have he : ∀ a p : Int, computeDamage difficulty a defense p v =
      (if cppIntCast (rawOf difficulty a defense p v + 1 / 2) < 1 then 1
        else cppIntCast (rawOf difficulty a defense p v + 1 / 2)) := fun a p => rfl
  obtain ⟨m1, m2⟩ := rawOf_mono difficulty attack attack' defense power power' v hv hp
  constructor
  · intro h
    rw [he, he]
    have hc := cppIntCast_mono
      (show rawOf difficulty attack defense power v + 1 / 2 ≤
          rawOf difficulty attack defense power' v + 1 / 2 by linarith [m1 h])
    split_ifs <;> omega
  · intro h
    rw [he, he]
    have hc := cppIntCast_mono
      (show rawOf difficulty attack defense power v + 1 / 2 ≤
          rawOf difficulty attack' defense power v + 1 / 2 by linarith [m2 h])
    split_ifs <;> omega

/-- Witness for C8 at difficulty EASY, attack 11 ≤ 12, defense 6,
power 40 ≤ 45, variance draw 100. -/
theorem computeDamage_monotone_witness :
    computeDamage 0 11 6 40 100 ≤ computeDamage 0 11 6 45 100 ∧
    computeDamage 0 11 6 40 100 ≤ computeDamage 0 12 6 40 100 :=
  ⟨(computeDamage_monotone 0 11 12 6 40 45 100 (by decide) (by decide)).1 (by decide),
    (computeDamage_monotone 0 11 12 6 40 45 100 (by decide) (by decide)).2 (by decide)⟩

/-! ## C3 -/

/-- Closed form of the HARD best-move scan on a three-move list
(every creature in the bank has exactly three moves). -/
theorem hardBest_three (a b c : Move) :
    hardBest [a, b, c] =
      if b.power > a.power ∧ 0 < b.pp then
        (if c.power > b.power ∧ 0 < c.pp then 2 else 1)
      else
        (if c.power > a.power ∧ 0 < c.pp then 2 else 0) := by
  unfold hardBest
  rw [show List.range [a, b, c].length = [0, 1, 2] from rfl]
  by_cases h1 : b.power > a.power ∧ 0 < b.pp <;>
    simp [h1, List.foldl, List.getD, lt_self_iff_false]

/-- C3 counterexample: with Pikachu's moves after Thunder's PP is
exhausted (`[Thunder power 40 pp 0, Quick power 40 pp 20, Growl power
0 pp 25]`), the HARD policy's scan keeps `best = 0` (no later move has
strictly greater power), so on a roll ≤ 85 the CPU chooses move 0
whose remaining PP is 0 — not a move with strictly positive PP (move 1
has power 40 and PP 20 and would be the claim's choice). -/
theorem hardChoose_cex :
    hardChoose 50 [⟨"Thunder", 40, 95, 0⟩, ⟨"Quick", 40, 100, 20⟩, ⟨"Growl", 0, 100, 25⟩] = 0 ∧
    (List.getD [⟨"Thunder", 40, 95, 0⟩, ⟨"Quick", 40, 100, 20⟩, ⟨"Growl", 0, 100, 25⟩]
      0 defaultMove).pp = 0 ∧
    0 < (List.getD [⟨"Thunder", 40, 95, 0⟩, ⟨"Quick", 40, 100, 20⟩, ⟨"Growl", 0, 100, 25⟩]
      1 defaultMove).pp :=
  ⟨rfl, rfl, by decide⟩

/-- C3 amended: under HARD difficulty the CPU scan starts at index 0
without checking move 0's PP and adopts a later move only when its
power strictly exceeds the current candidate's and its PP is positive;
provided move 0 itself has positive PP, the selected index is the
highest-power move among those with positive PP (ties resolved by
first occurrence).  The selected move is then used when the 1-100 roll
is ≤ 85 and the CPU retreats otherwise. -/
theorem hardChoose_spec (a b c : Move) (roll : Int) (h0 : 0 < a.pp) :
    (0 < (List.getD [a, b, c] (hardBest [a, b, c]) defaultMove).pp ∧
      ∀ i : Nat, i < 3 → 0 < (List.getD [a, b, c] i defaultMove).pp →
        (List.getD [a, b, c] i defaultMove).power ≤
          (List.getD [a, b, c] (hardBest [a, b, c]) defaultMove).power ∧
        ((List.getD [a, b, c] i defaultMove).power =
            (List.getD [a, b, c] (hardBest [a, b, c]) defaultMove).power →
          hardBest [a, b, c] ≤ i)) ∧
    (roll ≤ 85 → hardChoose roll [a, b, c] = (hardBest [a, b, c] : Int)) ∧
    (85 < roll → hardChoose roll [a, b, c] = 3) := by
  have g0 : List.getD [a, b, c] 0 defaultMove = a := rfl
  have g1 : List.getD [a, b, c] 1 defaultMove = b := rfl
  have g2 : List.getD [a, b, c] 2 defaultMove = c := rfl
  have hroll1 : roll ≤ 85 → hardChoose roll [a, b, c] = (hardBest [a, b, c] : Int) := by
    intro h; unfold hardChoose; rw [if_pos h]
  have hroll2 : 85 < roll → hardChoose roll [a, b, c] = 3 := by
    intro h; unfold hardChoose; rw [if_neg (by omega)]
  refine ⟨?_, hroll1, hroll2⟩
  rw [hardBest_three]
  by_cases h1 : b.power > a.power ∧ 0 < b.pp
  · rw [if_pos h1]
    by_cases h2 : c.power > b.power ∧ 0 < c.pp
    · rw [if_pos h2, g2]
      refine ⟨h2.2, ?_⟩
      intro i hi hpi
      interval_cases i <;> simp only [g0, g1, g2] at hpi ⊢ <;> omega
    · rw [if_neg h2, g1]
      refine ⟨h1.2, ?_⟩
      intro i hi hpi
      interval_cases i <;> simp only [g0, g1, g2] at hpi ⊢ <;> omega
  · rw [if_neg h1]
    by_cases h2 : c.power > a.power ∧ 0 < c.pp
    · rw [if_pos h2, g2]
      refine ⟨h2.2, ?_⟩
      intro i hi hpi
      interval_cases i <;> simp only [g0, g1, g2] at hpi ⊢ <;> omega
    · rw [if_neg h2, g0]
      refine ⟨h0, ?_⟩
      intro i hi hpi
      interval_cases i <;> simp only [g0, g1, g2] at hpi ⊢ <;> omega

/-- Witness for C3's amended theorem on Pikachu's fresh move list,
roll 50: the selected move has positive PP. -/
theorem hardChoose_spec_witness :
    0 < (List.getD [(⟨"Thunder", 40, 95, 15⟩ : Move), ⟨"Quick", 40, 100, 20⟩,
        ⟨"Growl", 0, 100, 25⟩]
      (hardBest [⟨"Thunder", 40, 95, 15⟩, ⟨"Quick", 40, 100, 20⟩, ⟨"Growl", 0, 100, 25⟩])
      defaultMove).pp :=
  (hardChoose_spec ⟨"Thunder", 40, 95, 15⟩ ⟨"Quick", 40, 100, 20⟩ ⟨"Growl", 0, 100, 25⟩
    50 (by decide)).1.1

/-! ## C9 -/

/-- C9 counterexample: a negative chosen action (other than the -1
"nothing pressed" sentinel and 3 = retreat) is not clamped by the
`mIdx >= size` check, so the lookup is out of bounds (`none` in the
partial model; undefined behaviour for the C++ `vector`). -/
theorem lookupMove_cex :
    lookupMove [⟨"Thunder", 40, 95, 15⟩, ⟨"Quick", 40, 100, 20⟩, ⟨"Growl", 0, 100, 25⟩]
        (-2) = none ∧
    (-2 : Int) ≠ 3 ∧ (-2 : Int) ≠ -1 :=
  ⟨rfl, by decide, by decide⟩

/-- C9 amended: for every nonnegative chosen action index and
nonempty move list (the game's combatants always carry three moves),
an index ≥ the number of moves is clamped to 0 before lookup, so the
lookup is always in bounds; only nonnegative indices enjoy this
(negative ones other than the unreachable -1 sentinel are not
clamped). -/
theorem lookupMove_isSome (moves : List Move) (chosen : Int)
    (h0 : 0 ≤ chosen) (hne : moves ≠ []) :
    (lookupMove moves chosen).isSome = true := by
  have hlen : 0 < moves.length := List.length_pos.mpr hne
  simp only [lookupMove]
  split_ifs with h1 h2 h3 <;> first | rfl | (exfalso; omega)

/-- Witness for C9's amended theorem: chosen = 7 on a three-move list
is clamped into bounds. -/
theorem lookupMove_isSome_witness :
    (lookupMove [⟨"Thunder", 40, 95, 15⟩, ⟨"Quick", 40, 100, 20⟩, ⟨"Growl", 0, 100, 25⟩]
      7).isSome = true :=
  lookupMove_isSome _ 7 (by decide) (by exact List.cons_ne_nil _ _)

/-! ## C1 -/

/-- Processing a chosen move whose remaining PP is ≤ 0 only emits the
no-PP message and (per main.cpp line 707) clears the actor's defend
flag when the selected move is an attack; health, PP and the target
are untouched, and control falls through to the turn swap. -/
theorem processAction_no_pp (difficulty : Int) (actor target : Pokemon)
    (chosen accRoll variance : Int) (projHits : Bool)
    (h0 : 0 ≤ chosen) (h3 : chosen ≠ 3)
    (hlen : chosen < (actor.moves.length : Int))
    (hpp : (actor.moves.getD chosen.toNat defaultMove).pp ≤ 0) :
    processAction difficulty actor target chosen accRoll variance projHits =
      .proceed
        { actor with defending :=
            if actor.defending ∧ 0 < (actor.moves.getD chosen.toNat defaultMove).power
            then false else actor.defending }
        target ["No PP left for that move."] := by
  have hni : chosen ≠ -1 := by omega
  have hmi : ¬((actor.moves.length : Int) ≤ chosen) := by omega
  simp only [processAction, if_neg h3, if_pos hni, if_neg hmi]
  rw [if_pos hpp, if_pos hpp, ite_self]
  dsimp only
  by_cases hd : actor.defending ∧ 0 < (actor.moves.getD chosen.toNat defaultMove).power
  · rw [if_pos hd, if_pos hd]
  · rw [if_neg hd, if_neg hd]

/-- C1 amended (corrected): when the acting combatant selects a move
(utility or attack) whose remaining PP is ≤ 0, the engine reports the
no-PP message and changes no health or PP on either side; however the
turn DOES advance (the same actor is not re-prompted: `p1Turn` flips),
and when the actor was defending and the selected move is an attack
(power > 0), the actor's defend flag is additionally cleared by the
post-resolution line 707. -/
theorem turnStep_no_pp (difficulty : Int) (st : MatchState)
    (chosen accRoll variance : Int) (projHits : Bool)
    (h0 : 0 ≤ chosen) (h3 : chosen ≠ 3)
    (hlen : chosen < ((actorOf st).pkmn.moves.length : Int))
    (hpp : ((actorOf st).pkmn.moves.getD chosen.toNat defaultMove).pp ≤ 0) :
    turnStep difficulty st chosen accRoll variance projHits =
      .next
        (if st.p1Turn then
          { p1 := { st.p1 with pkmn := { st.p1.pkmn with defending :=
              if st.p1.pkmn.defending ∧
                  0 < (st.p1.pkmn.moves.getD chosen.toNat defaultMove).power
              then false else st.p1.pkmn.defending } }
            p2 := st.p2, p1Turn := false }
        else
          { p1 := st.p1
            p2 := { st.p2 with pkmn := { st.p2.pkmn with defending :=
              if st.p2.pkmn.defending ∧
                  0 < (st.p2.pkmn.moves.getD chosen.toNat defaultMove).power
              then false else st.p2.pkmn.defending } }
            p1Turn := true })
        ["No PP left for that move."] := by
  have hni : chosen ≠ -1 := by omega
  have hguard : ¬((actorOf st).isHuman ∧ chosen = -1) := by
    rintro ⟨-, h⟩; omega
  have hpa := processAction_no_pp difficulty (actorOf st).pkmn (targetOf st).pkmn
    chosen accRoll variance projHits h0 h3 hlen hpp
  simp only [turnStep, if_neg hguard, hpa]
  by_cases ht : st.p1Turn = true
  · simp only [actorOf, targetOf, ht, if_true, if_pos]
  · simp only [actorOf, targetOf, ht, if_false, if_neg, Bool.not_eq_true] at *

/-- C1 counterexample: a concrete state in which player one (to act,
`p1Turn = true`) selects move 0 (Thunder) with 0 remaining PP.  The
no-PP condition is reported and no combatant data changes, but the
step result carries `p1Turn := false`: the turn order advances to the
other combatant instead of re-prompting the same actor. -/
theorem turnStep_no_pp_cex :
    turnStep 0
      { p1 := { label := "Player 1", isHuman := true, pkmn :=
          { name := "Pikachu", maxHP := 40, hp := 40, attack := 11, defense := 6,
            moves := [⟨"Thunder", 40, 95, 0⟩, ⟨"Quick", 40, 100, 20⟩, ⟨"Growl", 0, 100, 25⟩],
            defending := false } }
        p2 := { label := "Player 2", isHuman := false, pkmn :=
          { name := "Charmander", maxHP := 45, hp := 45, attack := 10, defense := 7,
            moves := [⟨"Ember", 40, 95, 15⟩, ⟨"Scratch", 35, 100, 25⟩, ⟨"Tail", 0, 100, 25⟩],
            defending := false } }
        p1Turn := true }
      0 50 90 true =
    .next
      { p1 := { label := "Player 1", isHuman := true, pkmn :=
          { name := "Pikachu", maxHP := 40, hp := 40, attack := 11, defense := 6,
            moves := [⟨"Thunder", 40, 95, 0⟩, ⟨"Quick", 40, 100, 20⟩, ⟨"Growl", 0, 100, 25⟩],
            defending := false } }
        p2 := { label := "Player 2", isHuman := false, pkmn :=
          { name := "Charmander", maxHP := 45, hp := 45, attack := 10, defense := 7,
            moves := [⟨"Ember", 40, 95, 15⟩, ⟨"Scratch", 35, 100, 25⟩, ⟨"Tail", 0, 100, 25⟩],
            defending := false } }
        p1Turn := false }
      ["No PP left for that move."] := by
  rfl

/-- Witness for C1's amended theorem: player two (CPU, defending) to
act selects attack move 0 with 0 PP; the message is emitted, the turn
flips back to player one, and the defend flag is cleared. -/
theorem turnStep_no_pp_witness :
    turnStep 1
      { p1 := { label := "Player 1", isHuman := true, pkmn :=
          { name := "Squirtle", maxHP := 50, hp := 30, attack := 9, defense := 9,
            moves := [⟨"Water", 40, 95, 15⟩, ⟨"Tackle", 40, 100, 25⟩, ⟨"Withdraw", 0, 100, 25⟩],
            defending := false } }
        p2 := { label := "Player 2", isHuman := false, pkmn :=
          { name := "Gengar", maxHP := 55, hp := 20, attack := 12, defense := 6,
            moves := [⟨"Shadow", 50, 90, 0⟩, ⟨"Lick", 30, 95, 20⟩, ⟨"Hypno", 0, 70, 8⟩],
            defending := true } }
        p1Turn := false }
      0 77 92 false =
    .next
      { p1 := { label := "Player 1", isHuman := true, pkmn :=
          { name := "Squirtle", maxHP := 50, hp := 30, attack := 9, defense := 9,
            moves := [⟨"Water", 40, 95, 15⟩, ⟨"Tackle", 40, 100, 25⟩, ⟨"Withdraw", 0, 100, 25⟩],
            defending := false } }
        p2 := { label := "Player 2", isHuman := false, pkmn :=
          { name := "Gengar", maxHP := 55, hp := 20, attack := 12, defense := 6,
            moves := [⟨"Shadow", 50, 90, 0⟩, ⟨"Lick", 30, 95, 20⟩, ⟨"Hypno", 0, 70, 8⟩],
            defending := false } }
        p1Turn := true }
      ["No PP left for that move."] :=
  (turnStep_no_pp 1 _ 0 77 92 false (by decide) (by decide) (by decide) (by decide)).trans
    (by rfl)

/-! ## C7 -/

/-- Selector: the actor's move list after a fall-through (non-retreat)
action resolution; `none` when the action ended the match. -/
def actorMovesOf : ActionResult → Option (List Move)
  | .proceed a _ _ => some a.moves
  | .retreatEnd _ _ => none

/-- C7: during resolution of an attack move (power > 0) with PP
available, PP is decremented by exactly 1 — and only that move's entry
changes — exactly when the accuracy roll succeeds
(`accRoll ≤ accuracy`), covering both the hit and the no-hit
projectile fallback (`projHits` is universally quantified); a miss
(`accuracy < accRoll`) consumes no PP at all. -/
theorem processAction_pp_consumption (difficulty : Int) (actor target : Pokemon)
    (chosen accRoll variance : Int) (projHits : Bool)
    (h0 : 0 ≤ chosen) (h3 : chosen ≠ 3)
    (hlen : chosen < (actor.moves.length : Int))
    (hpow : 0 < (actor.moves.getD chosen.toNat defaultMove).power)
    (hpp : 0 < (actor.moves.getD chosen.toNat defaultMove).pp) :
    ((actor.moves.getD chosen.toNat defaultMove).accuracy < accRoll →
      actorMovesOf (processAction difficulty actor target chosen accRoll variance projHits) =
        some actor.moves) ∧
    (accRoll ≤ (actor.moves.getD chosen.toNat defaultMove).accuracy →
      actorMovesOf (processAction difficulty actor target chosen accRoll variance projHits) =
        some (actor.moves.set chosen.toNat
          { actor.moves.getD chosen.toNat defaultMove with
              pp := (actor.moves.getD chosen.toNat defaultMove).pp - 1 })) := by
  have hni : chosen ≠ -1 := by omega
  have hmi : ¬((actor.moves.length : Int) ≤ chosen) := by omega
  have hpw0 : ¬((actor.moves.getD chosen.toNat defaultMove).power = 0) := by omega
  have hpp0 : ¬((actor.moves.getD chosen.toNat defaultMove).pp ≤ 0) := by omega
  simp only [processAction, if_neg h3, if_pos hni, if_neg hmi, if_neg hpw0, if_neg hpp0]
  by_cases hacc : (actor.moves.getD chosen.toNat defaultMove).accuracy < accRoll
  · rw [if_pos hacc]
    dsimp only
    refine ⟨fun _ => ?_, fun h => absurd h (by omega)⟩
    split <;> rfl
  · rw [if_neg hacc]
    by_cases hh : projHits = true
    · rw [if_pos hh]
      dsimp only
      refine ⟨fun h => absurd h (by omega), fun _ => ?_⟩
      split <;> rfl
    · rw [if_neg hh]
      dsimp only
      refine ⟨fun h => absurd h (by omega), fun _ => ?_⟩
      split <;> rfl

/-- Witness for C7: Pikachu uses Thunder (accuracy 95) against
Charmander with roll 50 ≤ 95 and a projectile hit: Thunder's PP drops
from 15 to 14 and the other moves are untouched. -/
theorem processAction_pp_consumption_witness :
    actorMovesOf (processAction 0
      { name := "Pikachu", maxHP := 40, hp := 40, attack := 11, defense := 6,
        moves := [⟨"Thunder", 40, 95, 15⟩, ⟨"Quick", 40, 100, 20⟩, ⟨"Growl", 0, 100, 25⟩],
        defending := false }
      { name := "Charmander", maxHP := 45, hp := 45, attack := 10, defense := 7,
        moves := [⟨"Ember", 40, 95, 15⟩, ⟨"Scratch", 35, 100, 25⟩, ⟨"Tail", 0, 100, 25⟩],
        defending := false }
      0 50 90 true) =
    some [⟨"Thunder", 40, 95, 14⟩, ⟨"Quick", 40, 100, 20⟩, ⟨"Growl", 0, 100, 25⟩] :=
  ((processAction_pp_consumption 0 _ _ 0 50 90 true (by decide) (by decide) (by decide)
    (by decide) (by decide)).2 (by decide)).trans (by rfl)

/-! ## C2 -/

/-- A retreat choice (3) heals the actor by `RETREAT_HEAL` clamped to
its maximum and ends the iteration with `StepResult.retreatEnd`
(main.cpp lines 596-603). -/
theorem turnStep_retreat (difficulty : Int) (st : MatchState)
    (accRoll variance : Int) (projHits : Bool) :
    turnStep difficulty st 3 accRoll variance projHits =
      .retreatEnd
        (if st.p1Turn then
          { st with p1 := { st.p1 with pkmn := { st.p1.pkmn with hp :=
              if st.p1.pkmn.hp + RETREAT_HEAL > st.p1.pkmn.maxHP then st.p1.pkmn.maxHP
              else st.p1.pkmn.hp + RETREAT_HEAL } } }
        else
          { st with p2 := { st.p2 with pkmn := { st.p2.pkmn with hp :=
              if st.p2.pkmn.hp + RETREAT_HEAL > st.p2.pkmn.maxHP then st.p2.pkmn.maxHP
              else st.p2.pkmn.hp + RETREAT_HEAL } } })
        [(actorOf st).pkmn.name ++ " retreated and healed."] := by
  have hguard : ¬((actorOf st).isHuman = true ∧ (3 : Int) = -1) := by
    rintro ⟨-, hx⟩; omega
  simp only [turnStep, if_neg hguard, processAction, if_pos]
  by_cases ht : st.p1Turn = true
  · simp [actorOf, targetOf, ht]
  · simp [actorOf, targetOf, ht, Bool.not_eq_true] at *

/-- C2 amended (corrected): when the acting combatant selects retreat
(action 3) and neither side has fainted, its health increases by
exactly `RETREAT_HEAL = 8` clamped to its maximum, the match ends
immediately (`return false` at line 603) with no win credited to
either side — and, because that return skips the end-of-battle block,
NO session counter changes: the matches-played counter is NOT
incremented either; everything else about both seats is unchanged. -/
theorem runMatchAux_retreat (difficulty : Int) (inp : TurnInput) (rest : List TurnInput)
    (st : MatchState) (stats : SessionStats)
    (hf1 : st.p1.pkmn.fainted = false) (hf2 : st.p2.pkmn.fainted = false)
    (hch : inp.chosen = 3) :
    runMatchAux difficulty (inp :: rest) st stats =
      .retreated
        (if st.p1Turn then
          { st with p1 := { st.p1 with pkmn := { st.p1.pkmn with hp :=
              if st.p1.pkmn.hp + RETREAT_HEAL > st.p1.pkmn.maxHP then st.p1.pkmn.maxHP
              else st.p1.pkmn.hp + RETREAT_HEAL } } }
        else
          { st with p2 := { st.p2 with pkmn := { st.p2.pkmn with hp :=
              if st.p2.pkmn.hp + RETREAT_HEAL > st.p2.pkmn.maxHP then st.p2.pkmn.maxHP
              else st.p2.pkmn.hp + RETREAT_HEAL } } })
        stats
        [(actorOf st).pkmn.name ++ " retreated and healed."] := by
  simp only [runMatchAux, hf1, hf2, Bool.false_eq_true, or_self, if_false]
  rw [hch, turnStep_retreat]

/-- C2 counterexample: a full `runMatch` in which player one retreats
on the first turn with session counters (gamesPlayed, humanWins,
cpuWins) = (5, 2, 3).  The result keeps the counters at (5, 2, 3):
contrary to the claim, the matches-played counter is NOT incremented
on the retreat path (the `return false` at line 603 precedes
`gamesPlayed++` at line 731). -/
theorem runMatch_retreat_cex :
    runMatch 0 [⟨3, 50, 90, true⟩]
      { label := "Player 1", isHuman := true, pkmn :=
          { name := "Pikachu", maxHP := 40, hp := 31, attack := 11, defense := 6,
            moves := [⟨"Thunder", 40, 95, 15⟩, ⟨"Quick", 40, 100, 20⟩, ⟨"Growl", 0, 100, 25⟩],
            defending := false } }
      { label := "Player 2", isHuman := false, pkmn :=
          { name := "Charmander", maxHP := 45, hp := 45, attack := 10, defense := 7,
            moves := [⟨"Ember", 40, 95, 15⟩, ⟨"Scratch", 35, 100, 25⟩, ⟨"Tail", 0, 100, 25⟩],
            defending := false } }
      ⟨5, 2, 3⟩ =
    .retreated
      { p1 := { label := "Player 1", isHuman := true, pkmn :=
          { name := "Pikachu", maxHP := 40, hp := 39, attack := 11, defense := 6,
            moves := [⟨"Thunder", 40, 95, 15⟩, ⟨"Quick", 40, 100, 20⟩, ⟨"Growl", 0, 100, 25⟩],
            defending := false } }
        p2 := { label := "Player 2", isHuman := false, pkmn :=
          { name := "Charmander", maxHP := 45, hp := 45, attack := 10, defense := 7,
            moves := [⟨"Ember", 40, 95, 15⟩, ⟨"Scratch", 35, 100, 25⟩, ⟨"Tail", 0, 100, 25⟩],
            defending := false } }
        p1Turn := true }
      ⟨5, 2, 3⟩ ["Pikachu retreated and healed."] := by
  rfl

/-- Witness for C2's amended theorem: player two (CPU) retreats at
20/55 HP and ends at 28/55 with the counters untouched. -/
theorem runMatchAux_retreat_witness :
    runMatchAux 1 [⟨3, 10, 85, false⟩]
      { p1 := { label := "Player 1", isHuman := true, pkmn :=
          { name := "Squirtle", maxHP := 50, hp := 30, attack := 9, defense := 9,
            moves := [⟨"Water", 40, 95, 15⟩, ⟨"Tackle", 40, 100, 25⟩, ⟨"Withdraw", 0, 100, 25⟩],
            defending := false } }
        p2 := { label := "Player 2", isHuman := false, pkmn :=
          { name := "Gengar", maxHP := 55, hp := 20, attack := 12, defense := 6,
            moves := [⟨"Shadow", 50, 90, 12⟩, ⟨"Lick", 30, 95, 20⟩, ⟨"Hypno", 0, 70, 8⟩],
            defending := false } }
        p1Turn := false }
      ⟨7, 4, 2⟩ =
    .retreated
      { p1 := { label := "Player 1", isHuman := true, pkmn :=
          { name := "Squirtle", maxHP := 50, hp := 30, attack := 9, defense := 9,
            moves := [⟨"Water", 40, 95, 15⟩, ⟨"Tackle", 40, 100, 25⟩, ⟨"Withdraw", 0, 100, 25⟩],
            defending := false } }
        p2 := { label := "Player 2", isHuman := false, pkmn :=
          { name := "Gengar", maxHP := 55, hp := 28, attack := 12, defense := 6,
            moves := [⟨"Shadow", 50, 90, 12⟩, ⟨"Lick", 30, 95, 20⟩, ⟨"Hypno", 0, 70, 8⟩],
            defending := false } }
        p1Turn := false }
      ⟨7, 4, 2⟩ ["Gengar retreated and healed."] :=
  (runMatchAux_retreat 1 ⟨3, 10, 85, false⟩ [] _ ⟨7, 4, 2⟩
    (by decide) (by decide) (by decide)).trans (by rfl)

/-! ## C4 -/

/-- C4: when the battle loop terminates by fainting (at least one
side's health ≤ 0), the end-of-battle block runs: the matches-played
counter always increments; a double faint reports a tie and leaves
both win counters unchanged; otherwise exactly one win counter is
incremented, chosen by the non-fainted seat's human flag (humanWins
when that seat is human, cpuWins otherwise). -/
theorem runMatchAux_faint (difficulty : Int) (inputs : List TurnInput)
    (st : MatchState) (stats : SessionStats)
    (h : st.p1.pkmn.hp ≤ 0 ∨ st.p2.pkmn.hp ≤ 0) :
    runMatchAux difficulty inputs st stats =
      .finished st (endOfBattle st.p1 st.p2 stats).1 (endOfBattle st.p1 st.p2 stats).2 ∧
    (endOfBattle st.p1 st.p2 stats).1.gamesPlayed = stats.gamesPlayed + 1 ∧
    (st.p1.pkmn.hp ≤ 0 → st.p2.pkmn.hp ≤ 0 →
      (endOfBattle st.p1 st.p2 stats).2 = "It's a tie!" ∧
      (endOfBattle st.p1 st.p2 stats).1.humanWins = stats.humanWins ∧
      (endOfBattle st.p1 st.p2 stats).1.cpuWins = stats.cpuWins) ∧
    (st.p1.pkmn.hp ≤ 0 → 0 < st.p2.pkmn.hp →
      (st.p2.isHuman = true →
        (endOfBattle st.p1 st.p2 stats).1.humanWins = stats.humanWins + 1 ∧
        (endOfBattle st.p1 st.p2 stats).1.cpuWins = stats.cpuWins) ∧
      (st.p2.isHuman = false →
        (endOfBattle st.p1 st.p2 stats).1.cpuWins = stats.cpuWins + 1 ∧
        (endOfBattle st.p1 st.p2 stats).1.humanWins = stats.humanWins)) ∧
    (0 < st.p1.pkmn.hp → st.p2.pkmn.hp ≤ 0 →
      (st.p1.isHuman = true →
        (endOfBattle st.p1 st.p2 stats).1.humanWins = stats.humanWins + 1 ∧
        (endOfBattle st.p1 st.p2 stats).1.cpuWins = stats.cpuWins) ∧
      (st.p1.isHuman = false →
        (endOfBattle st.p1 st.p2 stats).1.cpuWins = stats.cpuWins + 1 ∧
        (endOfBattle st.p1 st.p2 stats).1.humanWins = stats.humanWins)) := by
  have hcond : st.p1.pkmn.fainted = true ∨ st.p2.pkmn.fainted = true := by
    simp only [Pokemon.fainted, decide_eq_true_eq]
    exact h
  refine ⟨?_, ?_⟩
  · cases inputs <;> simp only [runMatchAux] <;> rw [if_pos hcond]
  simp only [endOfBattle, Pokemon.fainted, decide_eq_true_eq]
  refine ⟨?_, ?_, ?_, ?_⟩
  · split_ifs <;> rfl
  · intro h1 h2
    rw [if_pos ⟨h1, h2⟩]
    exact ⟨rfl, rfl, rfl⟩
  · intro h1 h2
    rw [if_neg (by omega), if_pos h1]
    constructor <;> intro hh <;> rw [hh] <;> simp
  · intro h1 h2
    rw [if_neg (by omega), if_neg (by omega), if_pos h2]
    constructor <;> intro hh <;> rw [hh] <;> simp

/-- Witness for C4: player two (human seat) has fainted while player
one (CPU seat) survives; the CPU win counter goes from 2 to 3 and
gamesPlayed from 7 to 8. -/
theorem runMatchAux_faint_witness :
    runMatchAux 0 []
      { p1 := { label := "Player 1", isHuman := false, pkmn :=
          { name := "Onix", maxHP := 60, hp := 14, attack := 11, defense := 12,
            moves := [⟨"RockT", 50, 90, 15⟩, ⟨"Tackle", 40, 100, 25⟩, ⟨"Harden", 0, 100, 20⟩],
            defending := false } }
        p2 := { label := "Player 2", isHuman := true, pkmn :=
          { name := "Bulbasaur", maxHP := 48, hp := 0, attack := 9, defense := 8,
            moves := [⟨"Vine", 45, 100, 15⟩, ⟨"Tackle", 40, 100, 25⟩, ⟨"Seed", 0, 90, 20⟩],
            defending := false } }
        p1Turn := true }
      ⟨7, 4, 2⟩ =
      .finished
        { p1 := { label := "Player 1", isHuman := false, pkmn :=
            { name := "Onix", maxHP := 60, hp := 14, attack := 11, defense := 12,
              moves := [⟨"RockT", 50, 90, 15⟩, ⟨"Tackle", 40, 100, 25⟩, ⟨"Harden", 0, 100, 20⟩],
              defending := false } }
          p2 := { label := "Player 2", isHuman := true, pkmn :=
            { name := "Bulbasaur", maxHP := 48, hp := 0, attack := 9, defense := 8,
              moves := [⟨"Vine", 45, 100, 15⟩, ⟨"Tackle", 40, 100, 25⟩, ⟨"Seed", 0, 90, 20⟩],
              defending := false } }
          p1Turn := true }
        ⟨8, 4, 3⟩ "Player 2 lost. Player 1 wins!" :=
  ((runMatchAux_faint 0 [] _ ⟨7, 4, 2⟩ (Or.inr (by decide))).1).trans (by rfl)

end Minimon
